import Mathlib

/-!
Shallow embedding of the notification dispatch and delivery reliability
subsystem of the repository (api-gateway, email-service, push-service),
with theorems settling the specification claims.

Time is modelled as a natural-number clock (seconds); `time.time()` values
are passed explicitly to the operations that read the clock.
-/

namespace Notif

/-! ## Circuit breaker — src/push-service/app/services/circuit_breaker.py -/

inductive CircuitState where
  | closed
  | open
  | half_open
deriving DecidableEq, Repr

structure CircuitBreaker where
  failure_threshold : Nat
  recovery_timeout : Nat
  success_threshold : Nat
  failure_count : Nat
  success_count : Nat
  last_failure_time : Option Nat
  state : CircuitState
deriving DecidableEq, Repr

/-- `CircuitBreaker()` with the constructor defaults
(failure_threshold=5, recovery_timeout=60, success_threshold=2). -/
def CircuitBreaker.init : CircuitBreaker :=
  { failure_threshold := 5
    recovery_timeout := 60
    success_threshold := 2
    failure_count := 0
    success_count := 0
    last_failure_time := none
    state := .closed }

/-- `CircuitBreaker.can_proceed`.  Returns the boolean result together with
the updated breaker (the OPEN branch mutates `state` and `success_count`).
`now` is the value of `time.time()`; `time.time() - self.last_failure_time
>= self.recovery_timeout` is truncated Nat subtraction, which agrees with
the source for the monotone clocks the process observes. -/
def can_proceed (cb : CircuitBreaker) (now : Nat) : Bool × CircuitBreaker :=
  match cb.state with
  | .closed => (true, cb)
  | .open =>
      if now - (cb.last_failure_time.getD 0) ≥ cb.recovery_timeout then
        (true, { cb with state := .half_open, success_count := 0 })
      else
        (false, cb)
  | .half_open => (true, cb)

/-- `CircuitBreaker.record_success`.  Mirrors the two sequential (non-elif)
`if` statements of the source: a HALF_OPEN→CLOSED transition in the first
block makes the second block run as well. -/
def record_success (cb : CircuitBreaker) : CircuitBreaker :=
  let cb1 :=
    if cb.state = .half_open then
      let cb' := { cb with success_count := cb.success_count + 1 }
      if cb'.success_count ≥ cb'.success_threshold then
        { cb' with state := .closed, failure_count := 0 }
      else
        cb'
    else
      cb
  if cb1.state = .closed then { cb1 with failure_count := 0 } else cb1

/-- `CircuitBreaker.record_failure` at clock value `now`. -/
def record_failure (cb : CircuitBreaker) (now : Nat) : CircuitBreaker :=
  let cb1 := { cb with failure_count := cb.failure_count + 1,
                       last_failure_time := some now }
  let cb2 := if cb1.state = .half_open then { cb1 with state := .open } else cb1
  if cb2.failure_count ≥ cb2.failure_threshold then
    { cb2 with state := .open }
  else
    cb2

/-- Fold `record_failure` over a list of failure times. -/
def record_failures (cb : CircuitBreaker) : List Nat → CircuitBreaker
  | [] => cb
  | t :: ts => record_failures (record_failure cb t) ts

/-! ## Status store — src/api-gateway/app/services/queue_service.py

Redis is modelled as an association list from key (notification_id) to the
JSON status record.  ISO timestamps are modelled by the Nat clock;
`metadata` dictionaries as association lists of strings. -/

abbrev Meta := List (String × String)

structure StatusRecord where
  notification_id : String
  status : String
  created_at : Nat
  updated_at : Option Nat
  error_message : Option String
  delivered_at : Option String
  metadata : Option Meta
deriving DecidableEq, Repr

abbrev StatusStore := List (String × StatusRecord)

def storeLookup (store : StatusStore) (k : String) : Option StatusRecord :=
  match store.find? (fun p => p.fst = k) with
  | some p => some p.snd
  | none => none

def storeInsert (store : StatusStore) (k : String) (r : StatusRecord) : StatusStore :=
  (k, r) :: store.filter (fun p => p.fst ≠ k)

/-- Python truthiness of an `Optional[str]` argument: `None` and `""` are
falsy. -/
def truthyStr : Option String → Bool
  | none => false
  | some s => s ≠ ""

/-- Python truthiness of an `Optional[dict]` argument: `None` and `{}` are
falsy. -/
def truthyMeta : Option Meta → Bool
  | none => false
  | some m => ¬ m.isEmpty

/-- `QueueService.get_notification_status`. -/
def get_notification_status (store : StatusStore) (notification_id : String) :
    Option StatusRecord :=
  storeLookup store notification_id

/-- `QueueService.update_notification_status`.  Returns the record the
function returns together with the store after the `setex`.  When the id is
unknown a fresh record is created with `created_at = now`; each optional
field is written only when the argument is truthy. -/
def update_notification_status (store : StatusStore) (notification_id : String)
    (status : String) (error_message : Option String)
    (delivered_at : Option String) (metadata : Option Meta) (now : Nat) :
    StatusRecord × StatusStore :=
  let existing : StatusRecord :=
    match get_notification_status store notification_id with
    | some r => r
    | none =>
        { notification_id := notification_id
          status := status
          created_at := now
          updated_at := none
          error_message := none
          delivered_at := none
          metadata := none }
  let r1 := { existing with status := status, updated_at := some now }
  let r2 := if truthyStr error_message then { r1 with error_message := error_message } else r1
  let r3 := if truthyStr delivered_at then { r2 with delivered_at := delivered_at } else r2
  let r4 := if truthyMeta metadata then { r3 with metadata := metadata } else r3
  (r4, storeInsert store notification_id r4)

/-! ## Queued message — src/api-gateway/app/services/queue_service.py
`queue_notification` message body (the source field `variables` is renamed
`vars`: `variables` is reserved in Lean) -/

structure QMessage where
  notification_id : String
  notification_type : String
  user_email : String
  user_push_token : String
  template_code : String
  vars : Meta
  request_id : String
  priority : Nat
  metadata : Option Meta
  created_at : Nat
  retry_count : Nat
deriving DecidableEq, Repr

/-- `settings.MAX_RETRIES` (same default in all three services). -/
def MAX_RETRIES : Nat := 5

/-- Outcome of one delivery-sink attempt (SMTP send / FCM post): success,
or an exception carrying its message. -/
inductive SinkOutcome where
  | ok
  | err (msg : String)
deriving DecidableEq, Repr

/-- Broker-visible disposition of one `process_message` invocation. -/
inductive WorkerAction where
  | ack
  | breakerRequeue
  | backoffRequeue (sleepSec : Nat)
  | deadLetter
deriving DecidableEq, Repr

/-- Model of an ISO-format `datetime.utcnow().isoformat()` timestamp taken
at Nat clock `n`; always a non-empty string. -/
def isoTime (n : Nat) : String := "ts" ++ Nat.repr n

/-! ## Email worker — src/email-service/app/worker.py -/

/-- `EmailWorker.update_status`: posts to the gateway status endpoint, which
runs `QueueService.update_notification_status` with
`delivered_at = utcnow().isoformat() if status == "delivered" else None`
and `metadata = {"worker_type": "email"}`. -/
def email_update_status (store : StatusStore) (notification_id status : String)
    (error_message : Option String) (now : Nat) : StatusStore :=
  (update_notification_status store notification_id status error_message
    (if status = "delivered" then some (isoTime now) else none)
    (some [("worker_type", "email")]) now).snd

structure WorkerStep where
  action : WorkerAction
  breaker : CircuitBreaker
  store : StatusStore
  dlq : List QMessage
  statusWrites : List String
deriving DecidableEq, Repr

/-- `EmailWorker.process_message` on one dequeued message.  `outcome` is
what `send_email` does when reached; the template fetch cannot raise out of
`fetch_and_render_template` (it catches its own exceptions and falls back),
so the only exception source inside the `try` relevant to control flow is
the sink.  On the retry branch the source increments `retry_count` only on
its local `body` dict before `reject(requeue=True)`; the broker's stored
message is unchanged, which is why this function returns no modified
message for the requeue case. -/
def email_process_message (msg : QMessage) (cb : CircuitBreaker)
    (store : StatusStore) (outcome : SinkOutcome) (now : Nat) : WorkerStep :=
  let store1 := email_update_status store msg.notification_id "processing" none now
  let p := can_proceed cb now
  if p.fst = false then
    { action := .breakerRequeue, breaker := p.snd, store := store1,
      dlq := [], statusWrites := ["processing"] }
  else
    match outcome with
    | .ok =>
        let cb2 := record_success p.snd
        let store2 := email_update_status store1 msg.notification_id "delivered" none now
        { action := .ack, breaker := cb2, store := store2,
          dlq := [], statusWrites := ["processing", "delivered"] }
    | .err e =>
        let cb2 := record_failure p.snd now
        if msg.retry_count ≥ MAX_RETRIES then
          let store2 := email_update_status store1 msg.notification_id "failed" (some e) now
          { action := .deadLetter, breaker := cb2, store := store2,
            dlq := [msg], statusWrites := ["processing", "failed"] }
        else
          { action := .backoffRequeue (2 ^ msg.retry_count), breaker := cb2,
            store := store1, dlq := [], statusWrites := ["processing"] }

structure EmailRun where
  breaker : CircuitBreaker
  store : StatusStore
  dlq : List QMessage
  finished : Bool
  lastAction : Option WorkerAction
deriving DecidableEq, Repr

def EmailRun.init : EmailRun :=
  { breaker := CircuitBreaker.init, store := [], dlq := [],
    finished := false, lastAction := none }

/-- Repeated delivery of one enqueued message to the email worker: each
requeue (breaker or backoff) makes the broker redeliver the ORIGINAL body
`orig` — `reject(requeue=True)` returns the stored message, so the worker's
local `retry_count` increment is lost.  `attempts` lists the sink outcome
and clock value of each successive `process_message` invocation; the run
stops consuming attempts once the message is acked or dead-lettered. -/
def email_run (orig : QMessage) :
    List (SinkOutcome × Nat) → EmailRun → EmailRun
  | [], s => s
  | (o, t) :: rest, s =>
      if s.finished then s
      else
        let step := email_process_message orig s.breaker s.store o t
        email_run orig rest
          { breaker := step.breaker, store := step.store,
            dlq := s.dlq ++ step.dlq,
            finished := (step.action = WorkerAction.ack) ||
                        (step.action = WorkerAction.deadLetter),
            lastAction := some step.action }

/-! ## Push worker — src/push-service/app/worker.py -/

structure PushStep where
  action : WorkerAction
  breaker : CircuitBreaker
  dlq : List QMessage
  statusWrites : List String
  fcmRequests : Nat
deriving DecidableEq, Repr

/-- `PushWorker.send_push_notification`: when `FCM_API_KEY` is empty the
function logs and returns before building the request, so no HTTP post is
made and no exception can arise; otherwise the post happens and the given
sink outcome decides success. -/
def send_push_notification (fcm_api_key : String) (outcome : SinkOutcome) :
    SinkOutcome × Nat :=
  if fcm_api_key = "" then (.ok, 0) else (outcome, 1)

/-- `PushWorker.process_message`.  Unlike the email worker it performs no
status update anywhere: `statusWrites` is `[]` on every path. -/
def push_process_message (msg : QMessage) (cb : CircuitBreaker)
    (fcm_api_key : String) (outcome : SinkOutcome) (now : Nat) : PushStep :=
  let p := can_proceed cb now
  if p.fst = false then
    { action := .breakerRequeue, breaker := p.snd, dlq := [],
      statusWrites := [], fcmRequests := 0 }
  else
    let sent := send_push_notification fcm_api_key outcome
    match sent.fst with
    | .ok =>
        { action := .ack, breaker := record_success p.snd, dlq := [],
          statusWrites := [], fcmRequests := sent.snd }
    | .err _ =>
        let cb2 := record_failure p.snd now
        if msg.retry_count ≥ MAX_RETRIES then
          { action := .deadLetter, breaker := cb2, dlq := [msg],
            statusWrites := [], fcmRequests := sent.snd }
        else
          { action := .backoffRequeue (2 ^ msg.retry_count), breaker := cb2,
            dlq := [], statusWrites := [], fcmRequests := sent.snd }

/-- Consecutive `process_message` invocations of one push worker (fresh
`CircuitBreaker()` at `__init__`), threading the breaker. -/
def push_run (fcm_api_key : String) :
    List (QMessage × SinkOutcome × Nat) → CircuitBreaker →
    List PushStep × CircuitBreaker
  | [], cb => ([], cb)
  | (m, o, t) :: rest, cb =>
      let step := push_process_message m cb fcm_api_key o t
      let r := push_run fcm_api_key rest step.breaker
      (step :: r.fst, r.snd)

/-! ## API gateway router — src/api-gateway/app/routers/notifications.py,
src/api-gateway/app/services/user_service.py and
src/api-gateway/app/services/queue_service.py -/

structure User where
  email : String
  push_token : String
  prefs : List (String × Bool)
deriving DecidableEq, Repr

/-- `preferences.get(channel, True)`: an absent key defaults to enabled. -/
def prefGet (prefs : List (String × Bool)) (k : String) : Bool :=
  match prefs.find? (fun p => p.fst = k) with
  | some p => p.snd
  | none => true

/-- What the user-service call underneath `UserService.get_user` did:
an HTTP 200 JSON envelope, a non-2xx response (`raise_for_status` raises),
or a transport exception (timeout, connection error). -/
inductive UserLookup where
  | response (success : Bool) (data : Option User)
  | httpError
  | exn
deriving DecidableEq, Repr

/-- `UserService.get_user`: returns the envelope's `data` when
`success and data` holds, and `None` otherwise — including for BOTH error
outcomes, because the `except Exception` handler swallows them into
`return None`. -/
def get_user : UserLookup → Option User
  | .response true (some u) => some u
  | .response _ _ => none
  | .httpError => none
  | .exn => none

/-- The value stored under `request_id:{key}` by the idempotency `setex`. -/
structure IdemRecord where
  notification_id : String
  status : String
deriving DecidableEq, Repr

abbrev IdemStore := List (String × IdemRecord)

def idemLookup (store : IdemStore) (k : String) : Option IdemRecord :=
  match store.find? (fun p => p.fst = k) with
  | some p => some p.snd
  | none => none

def idemInsert (store : IdemStore) (k : String) (r : IdemRecord) : IdemStore :=
  (k, r) :: store.filter (fun p => p.fst ≠ k)

/-- Durable state reachable from the gateway: the two Redis key families
and the two broker queues. -/
structure GatewayState where
  request_ids : IdemStore
  statuses : StatusStore
  email_queue : List QMessage
  push_queue : List QMessage
deriving DecidableEq, Repr

def GatewayState.init : GatewayState :=
  { request_ids := [], statuses := [], email_queue := [], push_queue := [] }

/-- `NotificationRequest` (pydantic): `notification_type` is validated to
`"email"` or `"push"`, priority to 1..10. -/
structure NRequest where
  notification_type : String
  user_id : String
  template_code : String
  vars : Meta
  request_id : String
  priority : Nat
  metadata : Option Meta
deriving DecidableEq, Repr

/-- Which downstream call inside `queue_notification` raises, if any.
The source publishes to the exchange FIRST and only then writes the two
Redis keys, so a fault after the publish leaves the message enqueued. -/
inductive DownstreamFault where
  | faultFree
  | publishRaises
  | idemWriteRaises
  | statusWriteRaises
deriving DecidableEq, Repr

/-- The `message_body` dict built by `QueueService.queue_notification`. -/
def build_message (req : NRequest) (user : User) (nid : String) (now : Nat) :
    QMessage :=
  { notification_id := nid
    notification_type := req.notification_type
    user_email := user.email
    user_push_token := user.push_token
    template_code := req.template_code
    vars := req.vars
    request_id := req.request_id
    priority := req.priority
    metadata := req.metadata
    created_at := now
    retry_count := 0 }

/-- `exchange.publish` with `routing_key = f"{type}.queue"`. -/
def publish (st : GatewayState) (req : NRequest) (m : QMessage) : GatewayState :=
  if req.notification_type = "email" then
    { st with email_queue := st.email_queue ++ [m] }
  else
    { st with push_queue := st.push_queue ++ [m] }

/-- `QueueService.queue_notification`: publish, then `setex` the
idempotency mapping (24h TTL), then `setex` the initial `pending` status
record.  Returns `some nid` on success, `none` when the injected fault
raised (the caller sees the exception); in both cases the state holds the
writes that completed before the raise. -/
def queue_notification (st : GatewayState) (req : NRequest) (user : User)
    (nid : String) (now : Nat) (fault : DownstreamFault) :
    Option String × GatewayState :=
  match fault with
  | .publishRaises => (none, st)
  | .idemWriteRaises => (none, publish st req (build_message req user nid now))
  | .statusWriteRaises =>
      let st1 := publish st req (build_message req user nid now)
      let idem1 := idemInsert st1.request_ids req.request_id ⟨nid, "pending"⟩
      (none, { st1 with request_ids := idem1 })
  | .faultFree =>
      let st1 := publish st req (build_message req user nid now)
      let idem1 := idemInsert st1.request_ids req.request_id ⟨nid, "pending"⟩
      let st2 := { st1 with request_ids := idem1 }
      let pendingRec : StatusRecord :=
        { notification_id := nid, status := "pending", created_at := now,
          updated_at := none, error_message := none, delivered_at := none,
          metadata := none }
      (some nid, { st2 with statuses := storeInsert st2.statuses nid pendingRec })

/-- `QueueService.check_request_id`. -/
def check_request_id (st : GatewayState) (request_id : String) :
    Option IdemRecord :=
  idemLookup st.request_ids request_id

inductive SubmitResult where
  | alreadyProcessed (notification_id status : String)
  | queued (notification_id : String)
  | prefDisabled
  | notFound
  | serverError
deriving DecidableEq, Repr

/-- The body of `create_notification` AFTER the idempotency check read
returned `None`: user lookup, preference gate, enqueue.  Split out because
the check and the enqueue are separated by `await` points, so two
concurrent requests can both run the check before either runs this part.
`nid` is the freshly minted `notif_{uuid4().hex[:12]}`. -/
def submit_after_check (st : GatewayState) (req : NRequest)
    (lookup : UserLookup) (nid : String) (now : Nat) (fault : DownstreamFault) :
    SubmitResult × GatewayState :=
  match get_user lookup with
  | none => (.notFound, st)
  | some user =>
      if req.notification_type = "email" ∧ prefGet user.prefs "email" = false then
        (.prefDisabled, st)
      else if req.notification_type = "push" ∧ prefGet user.prefs "push" = false then
        (.prefDisabled, st)
      else
        match queue_notification st req user nid now fault with
        | (some n, st2) => (.queued n, st2)
        | (none, st2) => (.serverError, st2)

/-- `create_notification` (POST /notifications/). -/
def create_notification (st : GatewayState) (req : NRequest)
    (lookup : UserLookup) (nid : String) (now : Nat) (fault : DownstreamFault) :
    SubmitResult × GatewayState :=
  match check_request_id st req.request_id with
  | some rec => (.alreadyProcessed rec.notification_id rec.status, st)
  | none => submit_after_check st req lookup nid now fault

end Notif


namespace Notif

/-! ## Sample concrete inputs used by witnesses and counterexamples -/

/-- An email message as enqueued by the gateway: `retry_count = 0`. -/
def msg0 : QMessage :=
  { notification_id := "n1", notification_type := "email",
    user_email := "a@b.c", user_push_token := "tok",
    template_code := "welcome", vars := [], request_id := "k1",
    priority := 5, metadata := none, created_at := 0, retry_count := 0 }

/-- A push message as enqueued by the gateway. -/
def pmsg0 : QMessage :=
  { msg0 with notification_type := "push", notification_id := "n2" }

/-- Five consecutive failing delivery attempts (`MAX_RETRIES = 5`). -/
def fiveFails : List (SinkOutcome × Nat) :=
  [(.err "e1", 1), (.err "e2", 2), (.err "e3", 3), (.err "e4", 4), (.err "e5", 5)]

/-- The email worker run after `msg0` failed delivery five times. -/
def runAfterFive : EmailRun := email_run msg0 fiveFails EmailRun.init

/-- A stored record already in the terminal `delivered` state. -/
def deliveredRec : StatusRecord :=
  { notification_id := "n1", status := "delivered", created_at := 0,
    updated_at := some 5, error_message := none,
    delivered_at := some "ts5", metadata := none }

def user0 : User := { email := "a@b.c", push_token := "tok", prefs := [] }

def userNoPush : User :=
  { email := "a@b.c", push_token := "tok", prefs := [("push", false)] }

def req0 : NRequest :=
  { notification_type := "email", user_id := "u1", template_code := "welcome",
    vars := [], request_id := "k1", priority := 5, metadata := none }

def reqPush : NRequest := { req0 with notification_type := "push", request_id := "k2" }

/-- The breaker of a fresh worker after five `record_failure` calls at
clock 0. -/
def cbAfterFive : CircuitBreaker :=
  record_failures CircuitBreaker.init [0, 0, 0, 0, 0]

end Notif

namespace Notif

/-! ## Helper lemmas -/

theorem storeLookup_insert (s : StatusStore) (k : String) (r : StatusRecord) :
    storeLookup (storeInsert s k r) k = some r := by
  simp [storeLookup, storeInsert, List.find?]

theorem idemLookup_insert (s : IdemStore) (k : String) (r : IdemRecord) :
    idemLookup (idemInsert s k r) k = some r := by
  simp [idemLookup, idemInsert, List.find?]

theorem isoTime_ne_empty (n : Nat) : isoTime n ≠ "" := by
  intro h
  have h2 := congrArg String.data h
  simp [isoTime] at h2

theorem truthyStr_isoTime (n : Nat) : truthyStr (some (isoTime n)) = true := by
  simp [truthyStr, isoTime_ne_empty]

/-- `record_success` keeps a CLOSED breaker CLOSED (it only clears the
failure count). -/
theorem record_success_closed {cb : CircuitBreaker} (h : cb.state = .closed) :
    record_success cb = { cb with failure_count := 0 } := by
  simp [record_success, h]

/-- `can_proceed` on a CLOSED breaker allows and leaves the breaker as is. -/
theorem can_proceed_closed {cb : CircuitBreaker} (h : cb.state = .closed)
    (now : Nat) : can_proceed cb now = (true, cb) := by
  unfold can_proceed
  rw [h]

/-! ## C1 — retry policy vs. broker redelivery -/

/-- C1: evaluation at the failing input.  An email message enqueued with
`retry_count = 0` whose sink delivery fails five consecutive times
(`MAX_RETRIES = 5`) is NOT dead-lettered and its status does NOT become
`failed`: because `reject(requeue=True)` redelivers the original body, the
worker sees `retry_count = 0` on every attempt, so after the fifth failure
the dead-letter queue is still empty, the run is not finished, the last
broker action is another backoff-requeue (1s), and the stored status is
still `processing`.  The claimed policy (dead-letter and `failed` after
exactly `max_retries` failures) is therefore violated by the code. -/
theorem c1_five_failures_never_dead_letter :
    runAfterFive.dlq = [] ∧
    runAfterFive.finished = false ∧
    runAfterFive.lastAction = some (.backoffRequeue 1) ∧
    (storeLookup runAfterFive.store "n1").map (fun r => r.status) =
      some "processing" := by
  decide

/-! ## C2 — circuit breaker state machine -/

/-- C2 counterexample: after the breaker opens (five failures at clock 0)
and the recovery timeout elapses, a first `can_proceed` at clock 60
returns true and moves to HALF_OPEN — but a second `can_proceed` call with
NO success or failure recorded in between also returns true and leaves the
breaker unchanged.  No probe slot is consumed, refuting "exactly one probe
call is allowed (the HALF_OPEN probe slot is consumed)". -/
theorem c2_counterexample :
    (can_proceed cbAfterFive 60).fst = true ∧
    (can_proceed cbAfterFive 60).snd.state = .half_open ∧
    (can_proceed (can_proceed cbAfterFive 60).snd 60).fst = true ∧
    (can_proceed (can_proceed cbAfterFive 60).snd 60).snd =
      (can_proceed cbAfterFive 60).snd := by
  decide

/-- C2 (amended): from the initial CLOSED state with zero counts, after 5
consecutive `record_failure` calls the breaker is OPEN recording the last
failure time; `can_proceed` returns false before `recovery_timeout` (60s)
has elapsed since the last failure; once elapsed, `can_proceed` returns
true and moves to HALF_OPEN (and any number of further probes is allowed —
no probe slot is consumed); 2 consecutive `record_success` calls in
HALF_OPEN return the state to CLOSED with the failure count reset; a
single `record_failure` in HALF_OPEN returns the state to OPEN. -/
theorem c2_breaker_state_machine (t1 t2 t3 t4 t5 now t6 : Nat) :
    (record_failures CircuitBreaker.init [t1, t2, t3, t4, t5]).state = .open ∧
    (record_failures CircuitBreaker.init [t1, t2, t3, t4, t5]).last_failure_time
      = some t5 ∧
    (now - t5 < 60 →
      (can_proceed (record_failures CircuitBreaker.init [t1, t2, t3, t4, t5])
        now).fst = false) ∧
    (now - t5 ≥ 60 →
      can_proceed (record_failures CircuitBreaker.init [t1, t2, t3, t4, t5]) now
        = (true, { failure_threshold := 5, recovery_timeout := 60,
                   success_threshold := 2, failure_count := 5,
                   success_count := 0, last_failure_time := some t5,
                   state := .half_open }) ∧
      (record_success (record_success
        { failure_threshold := 5, recovery_timeout := 60,
          success_threshold := 2, failure_count := 5, success_count := 0,
          last_failure_time := some t5,
          state := CircuitState.half_open })).state = .closed ∧
      (record_success (record_success
        { failure_threshold := 5, recovery_timeout := 60,
          success_threshold := 2, failure_count := 5, success_count := 0,
          last_failure_time := some t5,
          state := CircuitState.half_open })).failure_count = 0 ∧
      (record_failure
        { failure_threshold := 5, recovery_timeout := 60,
          success_threshold := 2, failure_count := 5, success_count := 0,
          last_failure_time := some t5,
          state := CircuitState.half_open } t6).state = .open) := by
  have hcb : record_failures CircuitBreaker.init [t1, t2, t3, t4, t5] =
      { failure_threshold := 5, recovery_timeout := 60, success_threshold := 2,
        failure_count := 5, success_count := 0, last_failure_time := some t5,
        state := .open } := by
    simp [record_failures, record_failure, CircuitBreaker.init]
  rw [hcb]
  refine ⟨rfl, rfl, ?_, ?_⟩
  · intro h
    unfold can_proceed
    simp only [Option.getD]
    rw [if_neg (by omega)]
  · intro h
    refine ⟨?_, rfl, rfl, rfl⟩
    unfold can_proceed
    simp only [Option.getD]
    rw [if_pos (by omega)]

/-- C2 witness: the amended theorem applied with all five failures at
clock 0, probing at clocks 59 (still blocked) and 60 (allowed,
HALF_OPEN). -/
theorem c2_breaker_state_machine_witness :
    (can_proceed (record_failures CircuitBreaker.init [0, 0, 0, 0, 0]) 59).fst
      = false ∧
    (can_proceed (record_failures CircuitBreaker.init [0, 0, 0, 0, 0]) 60
      = (true, { failure_threshold := 5, recovery_timeout := 60,
                 success_threshold := 2, failure_count := 5,
                 success_count := 0, last_failure_time := some 0,
                 state := .half_open })) :=
  ⟨(c2_breaker_state_machine 0 0 0 0 0 59 0).2.2.1 (by decide),
   ((c2_breaker_state_machine 0 0 0 0 0 60 0).2.2.2 (by decide)).1⟩

/-! ## C3 — idempotency of submission -/

/-- `publish` only appends to a queue; the Redis key families are
untouched. -/
theorem publish_request_ids (st : GatewayState) (req : NRequest) (m : QMessage) :
    (publish st req m).request_ids = st.request_ids := by
  unfold publish
  split <;> rfl

/-- Re-submission of an already recorded idempotency key returns the
recorded notification_id and status and performs no durable write: the
gateway state is returned unchanged. -/
theorem create_notification_existing (st : GatewayState) (req : NRequest)
    (lookup : UserLookup) (nid : String) (now : Nat) (fault : DownstreamFault)
    (rec : IdemRecord) (h : check_request_id st req.request_id = some rec) :
    create_notification st req lookup nid now fault =
      (.alreadyProcessed rec.notification_id rec.status, st) := by
  unfold create_notification
  rw [h]

/-- A fault-free fresh submission records the idempotency mapping
`request_id ↦ (nid, "pending")`. -/
theorem create_notification_records_key (st : GatewayState) (req : NRequest)
    (lookup : UserLookup) (user : User) (nid : String) (now : Nat)
    (hchk : check_request_id st req.request_id = none)
    (huser : get_user lookup = some user)
    (hpe : ¬(req.notification_type = "email" ∧ prefGet user.prefs "email" = false))
    (hpp : ¬(req.notification_type = "push" ∧ prefGet user.prefs "push" = false)) :
    (create_notification st req lookup nid now .faultFree).fst = .queued nid ∧
    check_request_id (create_notification st req lookup nid now .faultFree).snd
      req.request_id = some ⟨nid, "pending"⟩ := by
  simp only [create_notification, submit_after_check, hchk, huser]
  rw [if_neg hpe, if_neg hpp]
  simp [queue_notification, check_request_id, publish_request_ids,
    idemLookup_insert]

/-- C3 counterexample: two submissions carrying the same idempotency key
`"k1"`, interleaved so that both run `check_request_id` before either has
recorded the mapping (both `await` the Redis read on the same initial
state).  Both pass the check, both enqueue, and they return DISTINCT
notification_ids ("n1" vs "n2") with TWO messages in the email queue —
refuting "both calls return the same notification_id, and at most one
message is enqueued" for concurrent submissions. -/
theorem c3_counterexample :
    check_request_id GatewayState.init req0.request_id = none ∧
    (submit_after_check GatewayState.init req0 (.response true (some user0))
      "n1" 0 .faultFree).fst = .queued "n1" ∧
    (submit_after_check
      (submit_after_check GatewayState.init req0 (.response true (some user0))
        "n1" 0 .faultFree).snd
      req0 (.response true (some user0)) "n2" 0 .faultFree).fst = .queued "n2" ∧
    ("n1" : String) ≠ "n2" ∧
    ((submit_after_check
      (submit_after_check GatewayState.init req0 (.response true (some user0))
        "n1" 0 .faultFree).snd
      req0 (.response true (some user0)) "n2" 0
      .faultFree).snd).email_queue.length = 2 := by
  decide

/-- C3 (amended): SEQUENTIAL submissions with the same idempotency key
within the retention window behave as claimed — the first fault-free
submission returns a fresh `nid` and records the mapping, and every later
submission carrying the same `request_id` returns the SAME `nid` (status
"pending" as recorded), enqueues nothing and performs no durable write
(the state is returned unchanged).  Concurrent submissions that both pass
the idempotency check before either records the mapping are NOT covered:
they can each enqueue (see the counterexample). -/
theorem c3_sequential_idempotency (st : GatewayState) (req : NRequest)
    (lookup lookup2 : UserLookup) (user : User) (nid nid2 : String)
    (now now2 : Nat) (fault2 : DownstreamFault)
    (hchk : check_request_id st req.request_id = none)
    (huser : get_user lookup = some user)
    (hpe : ¬(req.notification_type = "email" ∧ prefGet user.prefs "email" = false))
    (hpp : ¬(req.notification_type = "push" ∧ prefGet user.prefs "push" = false)) :
    (create_notification st req lookup nid now .faultFree).fst = .queued nid ∧
    create_notification (create_notification st req lookup nid now .faultFree).snd
        req lookup2 nid2 now2 fault2 =
      (.alreadyProcessed nid "pending",
        (create_notification st req lookup nid now .faultFree).snd) := by
  obtain ⟨h1, h2⟩ := create_notification_records_key st req lookup user nid now
    hchk huser hpe hpp
  exact ⟨h1, create_notification_existing _ req lookup2 nid2 now2 fault2 _ h2⟩

/-- C3 witness: the amended theorem at a concrete sequential pair — the
resubmission of key "k1" returns the id "n1" minted by the first call. -/
theorem c3_sequential_idempotency_witness :
    (create_notification GatewayState.init req0 (.response true (some user0))
      "n1" 0 .faultFree).fst = .queued "n1" ∧
    create_notification
        (create_notification GatewayState.init req0 (.response true (some user0))
          "n1" 0 .faultFree).snd
        req0 (.response true (some user0)) "n2" 1 .faultFree =
      (.alreadyProcessed "n1" "pending",
        (create_notification GatewayState.init req0 (.response true (some user0))
          "n1" 0 .faultFree).snd) :=
  c3_sequential_idempotency GatewayState.init req0 _ _ user0 "n1" "n2" 0 1
    .faultFree (by decide) (by decide) (by decide) (by decide)

/-! ## C4 — terminal statuses are not protected -/

/-- C4 counterexample: a record already in the terminal state `delivered`
is changed to `processing` by a later `update_notification_status` call —
refuting "once the stored status is terminal, no subsequent
update_notification_status call changes it". -/
theorem c4_counterexample :
    deliveredRec.status = "delivered" ∧
    (update_notification_status [("n1", deliveredRec)] "n1" "processing"
      none none none 9).fst.status = "processing" ∧
    (storeLookup (update_notification_status [("n1", deliveredRec)] "n1"
      "processing" none none none 9).snd "n1").map (fun r => r.status) =
      some "processing" := by
  decide

/-- C4 (amended): `update_notification_status` applies the requested
status unconditionally — the record returned and stored by every call has
exactly the `status` argument, whatever the previous stored status was
(including the terminal states `delivered` and `failed`); the store
enforces no transition discipline. -/
theorem c4_update_overwrites_status (store : StatusStore) (nid status : String)
    (em da : Option String) (md : Option Meta) (now : Nat) :
    (update_notification_status store nid status em da md now).fst.status
      = status ∧
    storeLookup (update_notification_status store nid status em da md now).snd
      nid = some (update_notification_status store nid status em da md now).fst := by
  refine ⟨?_, ?_⟩
  · simp only [update_notification_status]
    split <;> split <;> split <;> rfl
  · simp only [update_notification_status]
    exact storeLookup_insert _ _ _

/-! ## C5 — status marking around delivery -/

/-- C5 counterexample: the push worker successfully delivers `pmsg0` and
acknowledges it, yet performs NO status update at all — no `processing`
mark before the attempt and no `delivered` mark after it — refuting the
claim for the push channel. -/
theorem c5_counterexample :
    (push_process_message pmsg0 CircuitBreaker.init "key" .ok 3).action = .ack ∧
    (push_process_message pmsg0 CircuitBreaker.init "key" .ok 3).statusWrites
      = [] := by
  decide

/-- C5 (amended): the EMAIL worker marks the notification `processing`
first on every path, and on successful sink delivery (breaker allowing)
its status writes are exactly `processing` then `delivered`, leaving the
stored record `delivered` with a `delivered_at` timestamp.  The PUSH
worker performs no status update on any path. -/
theorem c5_email_only_status_updates (msg : QMessage) (cb : CircuitBreaker)
    (store : StatusStore) (outcome : SinkOutcome) (now : Nat) (key : String)
    (hcb : (can_proceed cb now).fst = true) :
    (email_process_message msg cb store outcome now).statusWrites.head? =
      some "processing" ∧
    (email_process_message msg cb store .ok now).statusWrites =
      ["processing", "delivered"] ∧
    (storeLookup (email_process_message msg cb store .ok now).store
        msg.notification_id).map (fun r => (r.status, r.delivered_at)) =
      some ("delivered", some (isoTime now)) ∧
    (push_process_message msg cb key outcome now).statusWrites = [] := by
  refine ⟨?_, ?_, ?_, ?_⟩
  · simp only [email_process_message, hcb]
    cases outcome with
    | ok => simp
    | err e =>
        simp only [Bool.true_eq_false, if_false]
        split <;> rfl
  · simp only [email_process_message, hcb]
    simp
  · simp only [email_process_message, hcb]
    simp [email_update_status, update_notification_status, storeLookup_insert,
      truthyStr, truthyMeta, isoTime_ne_empty]
  · simp only [push_process_message, hcb]
    cases h : (send_push_notification key outcome).fst with
    | ok => simp [h]
    | err e =>
        simp only [h, Bool.true_eq_false, if_false]
        split <;> rfl

/-- C5 witness: the amended theorem at `msg0` with a fresh CLOSED breaker
and a successful delivery at clock 3. -/
theorem c5_email_only_status_updates_witness :
    (email_process_message msg0 CircuitBreaker.init [] SinkOutcome.ok 3).statusWrites
      = ["processing", "delivered"] ∧
    (push_process_message msg0 CircuitBreaker.init "key" SinkOutcome.ok 3).statusWrites
      = [] :=
  ⟨(c5_email_only_status_updates msg0 CircuitBreaker.init [] .ok 3 "key"
      (by decide)).2.1,
   (c5_email_only_status_updates msg0 CircuitBreaker.init [] .ok 3 "key"
      (by decide)).2.2.2⟩

/-! ## C6 — error surfacing on submission -/

/-- C6 counterexample: the user-lookup dependency fails with a transport
exception (`UserLookup.exn`); `get_user` swallows it into `None`, and the
submission fails with NotFound (404) — not with a retryable submission
error — refuting "a downstream failure of the user-lookup ... surfaces to
the caller as a retryable submission error, not as NotFound". -/
theorem c6_counterexample :
    get_user .exn = none ∧
    (create_notification GatewayState.init req0 .exn "n1" 0 .faultFree).fst =
      .notFound := by
  decide

/-- C6 (amended): NotFound is returned exactly when `get_user` yields no
user — which happens for an absent user AND for any downstream failure of
the lookup (HTTP error or exception), since `get_user` swallows both into
`None`.  An enqueue (publish) failure surfaces as a retryable 500 error
with no durable write; but a storage failure AFTER the publish also
surfaces as a retryable 500 while the message is already enqueued with no
idempotency or status record — a partial durable state. -/
theorem c6_error_surfacing (st : GatewayState) (req : NRequest)
    (lookup : UserLookup) (user : User) (nid : String) (now : Nat)
    (fault : DownstreamFault)
    (hchk : check_request_id st req.request_id = none)
    (hpe : ¬(req.notification_type = "email" ∧ prefGet user.prefs "email" = false))
    (hpp : ¬(req.notification_type = "push" ∧ prefGet user.prefs "push" = false)) :
    (get_user .exn = none ∧ get_user .httpError = none) ∧
    (get_user lookup = none →
      create_notification st req lookup nid now fault = (.notFound, st)) ∧
    (get_user lookup = some user →
      create_notification st req lookup nid now .publishRaises =
        (.serverError, st)) ∧
    (get_user lookup = some user →
      create_notification st req lookup nid now .idemWriteRaises =
        (.serverError, publish st req (build_message req user nid now))) := by
  refine ⟨⟨rfl, rfl⟩, ?_, ?_, ?_⟩
  · intro hnone
    simp only [create_notification, submit_after_check, hchk, hnone]
  · intro hsome
    simp only [create_notification, submit_after_check, hchk, hsome]
    rw [if_neg hpe, if_neg hpp]
    simp [queue_notification]
  · intro hsome
    simp only [create_notification, submit_after_check, hchk, hsome]
    rw [if_neg hpe, if_neg hpp]
    simp [queue_notification]

/-- C6 witness: the amended theorem at concrete inputs — absent user gives
NotFound; a publish fault gives a retryable error with unchanged state. -/
theorem c6_error_surfacing_witness :
    (create_notification GatewayState.init req0 (.response true none) "n1" 0
      .faultFree = (.notFound, GatewayState.init)) ∧
    (create_notification GatewayState.init req0 (.response true (some user0))
      "n1" 0 .publishRaises = (.serverError, GatewayState.init)) :=
  ⟨(c6_error_surfacing GatewayState.init req0 (.response true none) user0 "n1" 0
      .faultFree (by decide) (by decide) (by decide)).2.1 (by decide),
   (c6_error_surfacing GatewayState.init req0 (.response true (some user0))
      user0 "n1" 0 .faultFree (by decide) (by decide) (by decide)).2.2.1
      (by decide)⟩

/-! ## C7 — backoff interval -/

/-- C7 counterexample: a first delivery failure (`retry_count = 0`) makes
the email worker sleep `2 ** 0 = 1` second before reject-with-requeue —
not `base * 2^retry_count = 2 * 2^0 = 2` seconds as claimed (there is no
2-second base factor in `asyncio.sleep(2 ** retry_count)`). -/
theorem c7_counterexample :
    (email_process_message msg0 CircuitBreaker.init [] (.err "boom") 0).action =
      .backoffRequeue 1 ∧
    msg0.retry_count = 0 ∧
    (1 : Nat) ≠ 2 * 2 ^ 0 := by
  decide

/-- C7 (amended): on a failed delivery attempt with
`retry_count < MAX_RETRIES` and the breaker allowing, both workers wait
`2 ^ retry_count` seconds (no base multiplier) and then reject the message
with requeue. -/
theorem c7_backoff_is_two_pow_retry (msg : QMessage) (cb : CircuitBreaker)
    (store : StatusStore) (e : String) (now : Nat) (key : String)
    (hcb : (can_proceed cb now).fst = true)
    (hr : msg.retry_count < MAX_RETRIES) :
    (email_process_message msg cb store (.err e) now).action =
      .backoffRequeue (2 ^ msg.retry_count) ∧
    (key ≠ "" →
      (push_process_message msg cb key (.err e) now).action =
        .backoffRequeue (2 ^ msg.retry_count)) := by
  have h5 : ¬ (5 ≤ msg.retry_count) := by
    simp only [MAX_RETRIES] at hr
    omega
  constructor
  · simp only [email_process_message, hcb]
    simp only [MAX_RETRIES] at h5 ⊢
    rw [if_neg h5]
    simp
  · intro hk
    simp only [push_process_message, send_push_notification, hcb, if_neg hk]
    simp only [MAX_RETRIES] at h5 ⊢
    rw [if_neg h5]
    simp

/-- C7 witness: second failure of a message redelivered with
`retry_count = 1` sleeps `2 ^ 1 = 2` seconds. -/
theorem c7_backoff_is_two_pow_retry_witness :
    (email_process_message { msg0 with retry_count := 1 } CircuitBreaker.init []
      (.err "boom") 0).action = .backoffRequeue (2 ^ 1) :=
  (c7_backoff_is_two_pow_retry { msg0 with retry_count := 1 }
    CircuitBreaker.init [] "boom" 0 "key" (by decide) (by decide)).1

/-! ## C8 — preference-disabled submissions -/

/-- C8: when the idempotency key is not already recorded and the target
user is found with the requested channel disabled in their preferences,
`create_notification` returns the non-error preference-disabled result
(an HTTP 202 `ApiResponse` with `success=False`, not an exception) and
returns the gateway state UNCHANGED: nothing is enqueued on any queue and
no status or idempotency record is written. -/
theorem c8_pref_disabled_no_side_effects (st : GatewayState) (req : NRequest)
    (lookup : UserLookup) (user : User) (nid : String) (now : Nat)
    (fault : DownstreamFault)
    (hchk : check_request_id st req.request_id = none)
    (huser : get_user lookup = some user) :
    (req.notification_type = "push" → prefGet user.prefs "push" = false →
      create_notification st req lookup nid now fault = (.prefDisabled, st)) ∧
    (req.notification_type = "email" → prefGet user.prefs "email" = false →
      create_notification st req lookup nid now fault = (.prefDisabled, st)) := by
  constructor
  · intro ht hp
    have hne : ¬(req.notification_type = "email" ∧
        prefGet user.prefs "email" = false) := by
      rintro ⟨h1, h2⟩
      rw [ht] at h1
      exact absurd h1 (by decide)
    simp only [create_notification, submit_after_check, hchk, huser]
    rw [if_neg hne, if_pos ⟨ht, hp⟩]
  · intro ht hp
    simp only [create_notification, submit_after_check, hchk, huser]
    rw [if_pos ⟨ht, hp⟩]

/-- C8 witness: a push submission for a user whose preferences carry
`push: False` yields the preference-disabled result on the unchanged
initial state. -/
theorem c8_pref_disabled_no_side_effects_witness :
    create_notification GatewayState.init reqPush
      (.response true (some userNoPush)) "n1" 0 .faultFree =
      (.prefDisabled, GatewayState.init) :=
  (c8_pref_disabled_no_side_effects GatewayState.init reqPush
    (.response true (some userNoPush)) userNoPush "n1" 0 .faultFree
    (by decide) (by decide)).1 (by decide) (by decide)

/-! ## C9 — empty FCM key drops pushes silently -/

/-- With an empty `FCM_API_KEY` and a CLOSED breaker, one push
`process_message` acknowledges the message, records a success, posts
nothing to FCM and writes no status. -/
theorem push_step_empty_key {cb : CircuitBreaker} (h : cb.state = .closed)
    (msg : QMessage) (outcome : SinkOutcome) (now : Nat) :
    push_process_message msg cb "" outcome now =
      { action := .ack, breaker := record_success cb, dlq := [],
        statusWrites := [], fcmRequests := 0 } := by
  have hp := can_proceed_closed h now
  simp [push_process_message, hp, send_push_notification]

/-- With an empty `FCM_API_KEY`, a worker whose breaker starts CLOSED
acknowledges every message in a run as a success with no FCM post and no
status write. -/
theorem push_run_empty_key (items : List (QMessage × SinkOutcome × Nat)) :
    ∀ cb : CircuitBreaker, cb.state = .closed →
      ∀ step ∈ (push_run "" items cb).fst,
        step.action = .ack ∧ step.fcmRequests = 0 ∧ step.statusWrites = [] := by
  induction items with
  | nil =>
      intro cb h step hstep
      simp [push_run] at hstep
  | cons it rest ih =>
      intro cb h step hstep
      obtain ⟨m, o, t⟩ := it
      simp only [push_run, push_step_empty_key h] at hstep
      rcases List.mem_cons.mp hstep with heq | hmem
      · subst heq
        exact ⟨rfl, rfl, rfl⟩
      · have hcl : (record_success cb).state = .closed := by
          rw [record_success_closed h]
          exact h
        exact ih (record_success cb) hcl step hmem

/-- C9: when the FCM API key setting is empty, `send_push_notification`
returns before posting anything, so a push worker (breaker CLOSED, as at
start-up) acknowledges every dequeued message, records it as a success to
the circuit breaker, makes no FCM request and writes no status: each
notification is silently dropped while being treated as a success. -/
theorem c9_empty_fcm_key_silent_ack (msg : QMessage) (cb : CircuitBreaker)
    (outcome : SinkOutcome) (now : Nat)
    (items : List (QMessage × SinkOutcome × Nat)) (hcb : cb.state = .closed) :
    push_process_message msg cb "" outcome now =
      { action := .ack, breaker := record_success cb, dlq := [],
        statusWrites := [], fcmRequests := 0 } ∧
    ∀ step ∈ (push_run "" items cb).fst,
      step.action = .ack ∧ step.fcmRequests = 0 ∧ step.statusWrites = [] :=
  ⟨push_step_empty_key hcb msg outcome now, push_run_empty_key items cb hcb⟩

/-- C9 witness: a push message whose FCM delivery would fail is still
acknowledged as a success when the key is empty (fresh worker breaker). -/
theorem c9_empty_fcm_key_silent_ack_witness :
    push_process_message pmsg0 CircuitBreaker.init "" (.err "fcm down") 7 =
      { action := .ack, breaker := record_success CircuitBreaker.init,
        dlq := [], statusWrites := [], fcmRequests := 0 } :=
  (c9_empty_fcm_key_silent_ack pmsg0 CircuitBreaker.init (.err "fcm down") 7 []
    (by decide)).1

/-! ## C10 — update_notification_status upsert semantics -/

/-- C10: `update_notification_status` never reports NotFound — for every
input it stores and returns a record (unknown ids get a fresh record with
`created_at = now` and the requested status applied); and for an existing
record each of `error_message`, `delivered_at` and `metadata` is left
unchanged whenever the corresponding argument is `None`. -/
theorem c10_update_upserts (store : StatusStore) (nid status : String)
    (em da : Option String) (md : Option Meta) (now : Nat) :
    storeLookup (update_notification_status store nid status em da md now).snd
      nid = some (update_notification_status store nid status em da md now).fst ∧
    (get_notification_status store nid = none →
      (update_notification_status store nid status em da md now).fst.created_at
        = now ∧
      (update_notification_status store nid status em da md now).fst.status
        = status) ∧
    (∀ r, get_notification_status store nid = some r →
      (em = none →
        (update_notification_status store nid status em da md now).fst.error_message
          = r.error_message) ∧
      (da = none →
        (update_notification_status store nid status em da md now).fst.delivered_at
          = r.delivered_at) ∧
      (md = none →
        (update_notification_status store nid status em da md now).fst.metadata
          = r.metadata)) := by
  refine ⟨?_, ?_, ?_⟩
  · simp only [update_notification_status]
    exact storeLookup_insert _ _ _
  · intro h
    simp only [update_notification_status, h]
    constructor
    · split <;> split <;> split <;> rfl
    · split <;> split <;> split <;> rfl
  · intro r hr
    refine ⟨?_, ?_, ?_⟩
    · intro hem
      subst hem
      simp only [update_notification_status, hr, truthyStr]
      simp only [Bool.false_eq_true, if_false]
      split <;> split <;> rfl
    · intro hda
      subst hda
      simp only [update_notification_status, hr, truthyStr]
      simp only [Bool.false_eq_true, if_false]
      split <;> split <;> rfl
    · intro hmd
      subst hmd
      simp only [update_notification_status, hr, truthyMeta]
      simp only [Bool.false_eq_true, if_false]
      split <;> split <;> rfl

/-- C10 witness: updating an unknown id creates a fresh record at the
call's clock; updating the existing delivered record with all-None
optional arguments keeps `error_message`, `delivered_at` and `metadata`. -/
theorem c10_update_upserts_witness :
    (update_notification_status [] "nX" "processing" none none none 4).fst.created_at
      = 4 ∧
    (update_notification_status [("n1", deliveredRec)] "n1" "processing"
      none none none 9).fst.delivered_at = deliveredRec.delivered_at :=
  ⟨((c10_update_upserts [] "nX" "processing" none none none 4).2.1
      (by decide)).1,
   (((c10_update_upserts [("n1", deliveredRec)] "n1" "processing"
      none none none 9).2.2 deliveredRec (by decide)).2.1) rfl⟩
